import Mathlib

/-!
Verification of the AI resume analyzer backend (`app.py`): a Flask service
with a `GET /` page route and a `POST /analyze` route that validates the
request, extracts text from an uploaded PDF, builds a fixed prompt, and
calls the Gemini API inside a bounded retry loop.

Modelling conventions: Python strings are `String`; Python `str.strip()` is
`pyStrip`; a PDF as seen through `pypdf` is an abstract `PdfDoc` (either the
parser raises, or it yields the per-page results of `page.extract_text()`);
the external Gemini client is abstracted as a function from the 0-indexed
attempt number and the call's `contents`/`system_instruction` arguments to
that attempt's outcome. The handler is embedded as a total function
returning the HTTP response together with the observable side-effect trace
(number of client invocations and the `time.sleep` durations, in order).
-/

namespace AiResume

/-- Body of an HTTP response produced by the app: the Flask `jsonify`
success and error shapes, the rendered HTML page, and the implicit Python
`None` return that would occur if the retry loop fell through (unreachable,
proved below). -/
inductive Body where
  | successJson (analysis : String)
  | errorJson (message : String)
  | htmlPage (template : String)
  | nonePy
  deriving DecidableEq, Repr

/-- An HTTP response: status code plus body. Flask defaults the status to
200 when the view returns only a body. -/
structure Response where
  status : Nat
  body : Body
  deriving DecidableEq, Repr

/-- Whitespace trimming of a character list: drop trailing whitespace, then
leading whitespace (the order is immaterial to the result). -/
def stripChars (l : List Char) : List Char :=
  ((l.reverse.dropWhile Char.isWhitespace).reverse).dropWhile Char.isWhitespace

/-- Model of Python `str.strip()` with no arguments (used by
`extract_text_from_pdf` and by the job-description validation). -/
def pyStrip (s : String) : String := ⟨stripChars s.data⟩

/-- Model of Python `str.lower()`: lowercase character by character. -/
def pyLower (s : String) : String := ⟨s.data.map Char.toLower⟩

/-- Model of Python `str.endswith(pat)`: `pat` is a suffix of `s`. -/
def pyEndsWith (s pat : String) : Bool := pat.data.isSuffixOf s.data

/-- A PDF document as seen through `pypdf`: either `PdfReader` raises while
parsing, or it yields a list of pages, each recorded by the string that
`page.extract_text()` returns for it (possibly empty). -/
inductive PdfDoc where
  | parseError (msg : String)
  | pages (ps : List String)
  deriving DecidableEq, Repr

/-- Embedding of `extract_text_from_pdf` (app.py lines 38-51): starting from
`text = ""`, append `page_text + "\n"` for every page whose extracted text
is truthy (`if page_text:`, i.e. non-empty), return `text.strip()`; if the
parser raises, the `except` branch returns Python `None` (here `none`). -/
def extract_text_from_pdf (pdf_file_stream : PdfDoc) : Option String :=
  match pdf_file_stream with
  | .parseError _ => none
  | .pages ps =>
      some (pyStrip (ps.foldl
        (fun text page_text =>
          if page_text ≠ "" then text ++ page_text ++ "\n" else text) ""))

/-- Python truthiness test `if not resume_text:` applied to the extraction
result: true exactly for `None` and for the empty string. -/
def isAbsent : Option String → Bool
  | none => true
  | some s => s = ""

/-- The constant system instruction (app.py lines 95-100), the four
adjacent string literals concatenated. -/
def system_instruction : String :=
  "You are a world-class Applicant Tracking System (ATS) and Career Coach. " ++
  "Your task is to analyze a candidate\x27s resume against a specific job description. " ++
  "Provide the analysis in structured markdown format with four distinct sections. " ++
  "Ensure the output is clean, well-formatted markdown, ready for display."

/-- Text of the `user_prompt` f-string (app.py lines 102-121) before the
interpolated job description. -/
def promptPre : String :=
  "\n        Analyze the candidate\x27s resume based on the following job description.\n\n        ## Job Description:\n        ---\n        "

/-- Text of the `user_prompt` f-string between the interpolated job
description and the interpolated resume text. -/
def promptMid : String :=
  "\n        ---\n\n        ## Candidate Resume Text (Extracted):\n        ---\n        "

/-- Text of the `user_prompt` f-string after the interpolated resume text:
the four numbered section requirements. -/
def promptTail : String :=
  "\n        ---\n\n        Your analysis must strictly follow this structure:\n\n        1.  **ATS Match Score:** A percentage score out of 100 (e.g., 78/100) indicating the match level. Use bold text for the score.\n        2.  **Missing Keywords/Skills:** A bulleted list of up to 5 essential skills/keywords mentioned in the Job Description but *missing* from the Resume. If none are missing, state that clearly.\n        3.  **Summary of Strengths:** A concise, single paragraph highlighting the candidate\x27s best relevant qualifications for the role.\n        4.  **Actionable Improvement Suggestions:** A bulleted list of 3-5 concrete, specific suggestions on how to modify the resume text to increase the match score.\n        "

/-- Embedding of the `user_prompt` f-string: literal interpolation of the
job description and the extracted resume text into the fixed template. -/
def user_prompt (job_description resume_text : String) : String :=
  promptPre ++ job_description ++ promptMid ++ resume_text ++ promptTail

/-- Piece of `promptTail` before the first numbered section header. -/
def promptTail0 : String :=
  "\n        ---\n\n        Your analysis must strictly follow this structure:\n\n        "

/-- Piece of `promptTail` between the first and second section headers. -/
def promptTail1 : String :=
  " A percentage score out of 100 (e.g., 78/100) indicating the match level. Use bold text for the score.\n        "

/-- Piece of `promptTail` between the second and third section headers. -/
def promptTail2 : String :=
  " A bulleted list of up to 5 essential skills/keywords mentioned in the Job Description but *missing* from the Resume. If none are missing, state that clearly.\n        "

/-- Piece of `promptTail` between the third and fourth section headers. -/
def promptTail3 : String :=
  " A concise, single paragraph highlighting the candidate\x27s best relevant qualifications for the role.\n        "

/-- Piece of `promptTail` after the fourth section header. -/
def promptTail4 : String :=
  " A bulleted list of 3-5 concrete, specific suggestions on how to modify the resume text to increase the match score.\n        "

/-- Outcome of one `client.models.generate_content` call: a normal response
carrying its `.text`, a raised `APIError`, or any other raised exception. -/
inductive CallOutcome where
  | ok (text : String)
  | apiErr (msg : String)
  | unexpected (msg : String)
  deriving DecidableEq, Repr

/-- The external Gemini client, abstracted by the outcome its
`generate_content` method produces on each 0-indexed attempt, given the
`contents` and the `system_instruction` configuration it is passed. -/
def Client : Type := Nat → String → String → CallOutcome

/-- Observable trace of one `POST /analyze` request: the HTTP response, the
number of Gemini client invocations, and the `time.sleep` durations in
call order. -/
structure HandlerTrace where
  response : Response
  calls : Nat
  sleeps : List Nat
  deriving DecidableEq, Repr

/-- `MAX_RETRIES = 3` (app.py line 124). -/
def MAX_RETRIES : Nat := 3

/-- Embedding of the `for attempt in range(MAX_RETRIES)` retry loop
(app.py lines 125-152). `remaining` counts loop iterations still available
(initially `maxRetries`); if it reached 0 the loop would fall through and
the Python function would implicitly return `None` (modelled by the
`Body.nonePy` response; unreachable because the final attempt returns).
On success: 200 with the generated text. On `APIError`: sleep
`2 ** attempt` seconds and retry, unless this was the final attempt, in
which case return the 500 error naming the attempt count. On any other
exception: return the distinct "Unexpected error" 500 immediately. -/
def callLoop (client : Client) (contents cfg : String) (maxRetries : Nat) :
    Nat → Nat → Nat → List Nat → HandlerTrace
  | _attempt, 0, calls, sleeps => ⟨⟨500, .nonePy⟩, calls, sleeps⟩
  | attempt, remaining + 1, calls, sleeps =>
    match client attempt contents cfg with
    | .ok text => ⟨⟨200, .successJson text⟩, calls + 1, sleeps⟩
    | .apiErr m =>
        if attempt < maxRetries - 1 then
          callLoop client contents cfg maxRetries (attempt + 1) remaining
            (calls + 1) (sleeps ++ [2 ^ attempt])
        else
          ⟨⟨500, .errorJson ("Gemini API Error after " ++ toString maxRetries ++
            " attempts: " ++ m)⟩, calls + 1, sleeps⟩
    | .unexpected m =>
        ⟨⟨500, .errorJson ("Unexpected error: " ++ m)⟩, calls + 1, sleeps⟩

/-- The uploaded `resume` file part: its declared filename, its abstract PDF
content, and an optional exception raised by `resume_file.read()` — the one
failure point inside the handler's outer `try` that is not classified by an
inner handler. -/
structure UploadedFile where
  filename : String
  content : PdfDoc
  readError : Option String := none

/-- A `POST /analyze` request: the `resume` entry of `request.files` and the
`job_description` entry of `request.form`, each possibly missing. -/
structure AnalyzeRequest where
  resume : Option UploadedFile
  job_description : Option String

/-- Embedding of the `POST /analyze` handler `analyze_resume`
(app.py lines 61-157). Steps, in source order: client-readiness check
(500), missing-field check (400), empty-filename check (400), `.pdf`
extension check on the lowercased filename (400), blank job description
check (400); then, inside the outer `try`: file read (an exception here is
caught by the outer `except` as "Internal Server Error"), text extraction
with Python-falsy test (500 image-only message), prompt construction, and
the Gemini retry loop. -/
def analyze_resume (client : Option Client) (req : AnalyzeRequest) : HandlerTrace :=
  match client with
  | none =>
      ⟨⟨500, .errorJson "Gemini API client not initialized. Check server logs for API Key error."⟩, 0, []⟩
  | some c =>
    match req.resume, req.job_description with
    | some resume_file, some job_description =>
      if resume_file.filename = "" then
        ⟨⟨400, .errorJson "No resume file selected."⟩, 0, []⟩
      else if ¬ pyEndsWith (pyLower resume_file.filename) ".pdf" then
        ⟨⟨400, .errorJson "Invalid file type. Please upload a PDF file."⟩, 0, []⟩
      else if pyStrip job_description = "" then
        ⟨⟨400, .errorJson "Job description cannot be empty."⟩, 0, []⟩
      else
        match resume_file.readError with
        | some e => ⟨⟨500, .errorJson ("Internal Server Error: " ++ e)⟩, 0, []⟩
        | none =>
          let resume_text := extract_text_from_pdf resume_file.content
          if isAbsent resume_text then
            ⟨⟨500, .errorJson "Could not extract readable text from PDF. The document might be an image-only PDF."⟩, 0, []⟩
          else
            callLoop c
              (user_prompt job_description (resume_text.getD ""))
              system_instruction MAX_RETRIES 0 MAX_RETRIES 0 []
    | _, _ =>
      ⟨⟨400, .errorJson "Missing required data: resume file or job description."⟩, 0, []⟩

/-- Embedding of the module-level Gemini client initialization
(app.py lines 23-34): `client = None`; when the key is truthy (non-empty),
construction is attempted and any exception it raises is caught, leaving
`client = None`. Construction itself is abstracted as a function that
either returns a client or raises. The source hardcodes a non-empty literal
credential (a defect the spec flags), so the key is a parameter here. -/
def initGeminiClient (apiKey : String) (construct : String → Except String Client) :
    Option Client :=
  if apiKey ≠ "" then
    match construct apiKey with
    | .ok c => some c
    | .error _ => none
  else
    none

/-- Embedding of the `GET /` route `index` (app.py lines 55-59): renders the
`index.html` template with the default 200 status. -/
def index : Response := ⟨200, .htmlPage "index.html"⟩

/-- Classification of the responses the handler can produce: a 200 JSON
success body, or a 400/500 JSON error body. -/
def isJsonOutcome (r : Response) : Prop :=
  (r.status = 200 ∧ ∃ t, r.body = .successJson t) ∨
    ((r.status = 400 ∨ r.status = 500) ∧ ∃ m, r.body = .errorJson m)

/-! Concrete fixtures used to instantiate the theorems below. -/

/-- A one-page PDF with extractable text. -/
def sampleFile : UploadedFile :=
  { filename := "resume.pdf"
    content := .pages ["Experienced engineer with Python and Go skills"] }

/-- A well-formed request carrying `sampleFile`. -/
def sampleReq : AnalyzeRequest :=
  { resume := some sampleFile
    job_description := some "Looking for a Go developer" }

/-- A PDF whose pages yield no text (one empty, one all-whitespace). -/
def imageOnlyFile : UploadedFile :=
  { filename := "scan.pdf", content := .pages ["", "  "] }

/-- A well-formed request carrying `imageOnlyFile`. -/
def imageOnlyReq : AnalyzeRequest :=
  { resume := some imageOnlyFile, job_description := some "Go developer" }

/-- An upload whose `read()` raises. -/
def readErrorFile : UploadedFile :=
  { filename := "resume.pdf"
    content := .pages ["text"]
    readError := some "disk failure" }

/-- A well-formed request carrying `readErrorFile`. -/
def readErrorReq : AnalyzeRequest :=
  { resume := some readErrorFile, job_description := some "Go developer" }

/-- Stub client: `APIError` on the first two attempts, success on the
third. -/
def failTwiceClient : Client := fun attempt _ _ =>
  if attempt < 2 then .apiErr ("rate limit " ++ toString attempt)
  else .ok "analysis text"

/-- Stub client: `APIError` on every attempt. -/
def failAllClient : Client := fun attempt _ _ =>
  .apiErr ("rate limit " ++ toString attempt)

/-- Stub client: `APIError` on the first attempt, then a non-API exception
on the second. -/
def lateUnexpectedClient : Client := fun attempt _ _ =>
  if attempt = 0 then .apiErr "rate limit" else .unexpected "boom"

/-- Stub client: a non-API exception on the first call. -/
def unexpectedClient : Client := fun _ _ _ => .unexpected "boom"

/-- Client construction that always raises. -/
def failingConstruct : String → Except String Client :=
  fun _ => .error "bad credential"

/-! Helper lemmas about stripping and newline-joined concatenation. -/

theorem stripChars_append_newline (l : List Char) :
    stripChars (l ++ ['\n']) = stripChars l := by
  simp [stripChars, List.dropWhile_cons]

theorem pyStrip_append_newline (s : String) : pyStrip (s ++ "\n") = pyStrip s := by
  show String.mk (stripChars (s ++ "\n").data) = String.mk (stripChars s.data)
  rw [String.data_append]
  exact congrArg String.mk (stripChars_append_newline s.data)

theorem foldl_nl_shift (l : List String) (a : String) :
    l.foldl (fun t p => t ++ p ++ "\n") a =
      a ++ l.foldl (fun t p => t ++ p ++ "\n") "" := by
  induction l generalizing a with
  | nil => simp [List.foldl_nil, String.append_empty]
  | cons x xs ih =>
    simp only [List.foldl_cons]
    rw [ih (a ++ x ++ "\n"), ih ("" ++ x ++ "\n")]
    apply String.ext
    simp [String.data_append, List.append_assoc]

theorem foldl_if_eq_filter (ps : List String) (a : String) :
    ps.foldl (fun t p => if p ≠ "" then t ++ p ++ "\n" else t) a =
      (ps.filter (fun p => p ≠ "")).foldl (fun t p => t ++ p ++ "\n") a := by
  induction ps generalizing a with
  | nil => rfl
  | cons x xs ih =>
    simp only [List.foldl_cons, List.filter_cons]
    by_cases hx : x = ""
    · rw [if_neg (by simp [hx]), if_neg (by simp [hx])]
      exact ih a
    · rw [if_pos hx, if_pos (by simp [hx]), List.foldl_cons]
      exact ih (a ++ x ++ "\n")

theorem intercalate_go_nl (l : List String) (acc : String) :
    String.intercalate.go acc "\n" l ++ "\n" =
      acc ++ "\n" ++ l.foldl (fun t p => t ++ p ++ "\n") "" := by
  induction l generalizing acc with
  | nil => simp [String.intercalate.go, String.append_empty]
  | cons x xs ih =>
    show String.intercalate.go (acc ++ "\n" ++ x) "\n" xs ++ "\n" = _
    rw [ih]
    simp only [List.foldl_cons]
    rw [foldl_nl_shift xs ("" ++ x ++ "\n")]
    apply String.ext
    simp [String.data_append, List.append_assoc]

theorem callLoop_ok {client : Client} {co cfg : String} {attempt rem calls : Nat}
    {sleeps : List Nat} {t : String} (h : client attempt co cfg = .ok t) :
    callLoop client co cfg MAX_RETRIES attempt (rem + 1) calls sleeps =
      ⟨⟨200, .successJson t⟩, calls + 1, sleeps⟩ := by
  simp [callLoop, h]

theorem callLoop_apiErr_retry {client : Client} {co cfg : String}
    {attempt rem calls : Nat} {sleeps : List Nat} {m : String}
    (h : client attempt co cfg = .apiErr m) (hlt : attempt < MAX_RETRIES - 1) :
    callLoop client co cfg MAX_RETRIES attempt (rem + 1) calls sleeps =
      callLoop client co cfg MAX_RETRIES (attempt + 1) rem (calls + 1)
        (sleeps ++ [2 ^ attempt]) := by
  simp [callLoop, h, hlt]

theorem callLoop_apiErr_final {client : Client} {co cfg : String}
    {attempt rem calls : Nat} {sleeps : List Nat} {m : String}
    (h : client attempt co cfg = .apiErr m) (hge : ¬ attempt < MAX_RETRIES - 1) :
    callLoop client co cfg MAX_RETRIES attempt (rem + 1) calls sleeps =
      ⟨⟨500, .errorJson ("Gemini API Error after " ++ toString MAX_RETRIES ++
        " attempts: " ++ m)⟩, calls + 1, sleeps⟩ := by
  simp [callLoop, h, hge]

theorem callLoop_unexpected {client : Client} {co cfg : String}
    {attempt rem calls : Nat} {sleeps : List Nat} {m : String}
    (h : client attempt co cfg = .unexpected m) :
    callLoop client co cfg MAX_RETRIES attempt (rem + 1) calls sleeps =
      ⟨⟨500, .errorJson ("Unexpected error: " ++ m)⟩, calls + 1, sleeps⟩ := by
  simp [callLoop, h]

theorem analyze_resume_valid (c : Client) (f : UploadedFile) (jd : String)
    (req : AnalyzeRequest) (hres : req.resume = some f)
    (hjd : req.job_description = some jd) (hfn : f.filename ≠ "")
    (hpdf : pyEndsWith (pyLower f.filename) ".pdf" = true)
    (hjdne : pyStrip jd ≠ "") (hread : f.readError = none)
    (hx : isAbsent (extract_text_from_pdf f.content) = false) :
    analyze_resume (some c) req =
      callLoop c (user_prompt jd ((extract_text_from_pdf f.content).getD ""))
        system_instruction MAX_RETRIES 0 MAX_RETRIES 0 [] := by
  obtain ⟨res, jdv⟩ := req
  cases hres
  cases hjd
  simp [analyze_resume, hfn, hpdf, hjdne, hread, hx]

theorem isJson_err {st : Nat} (m : String) (h : st = 400 ∨ st = 500) :
    isJsonOutcome ⟨st, .errorJson m⟩ := Or.inr ⟨h, m, rfl⟩

theorem isJson_ok (t : String) : isJsonOutcome ⟨200, .successJson t⟩ :=
  Or.inl ⟨rfl, t, rfl⟩

theorem foldl_nl_eq_intercalate (l : List String) :
    pyStrip (l.foldl (fun t p => t ++ p ++ "\n") "") =
      pyStrip (String.intercalate "\n" l) := by
  cases l with
  | nil => rfl
  | cons x xs =>
    have hgo : String.intercalate "\n" (x :: xs) = String.intercalate.go x "\n" xs := rfl
    rw [hgo, ← pyStrip_append_newline (String.intercalate.go x "\n" xs),
      intercalate_go_nl xs x]
    apply congrArg pyStrip
    simp only [List.foldl_cons]
    rw [foldl_nl_shift xs ("" ++ x ++ "\n")]
    apply String.ext
    simp [String.data_append, List.append_assoc]


/-- Claim C10: the client-readiness check precedes all input validation:
with no constructed client, every `POST /analyze` request — including one
with missing fields, a non-PDF filename, or an empty job description —
gets the service-unavailable 500 (never a 400) with zero client calls. -/
theorem client_check_precedes_validation (req : AnalyzeRequest) :
    analyze_resume none req =
      ⟨⟨500, .errorJson "Gemini API client not initialized. Check server logs for API Key error."⟩,
        0, []⟩ := rfl

/-- Claim C7: with the client initialized, a request missing the resume
file field or the job-description form field gets a 400 validation error
and the Analysis Client is never invoked. -/
theorem missing_fields_returns_400 (c : Client) (req : AnalyzeRequest)
    (h : req.resume = none ∨ req.job_description = none) :
    analyze_resume (some c) req =
      ⟨⟨400, .errorJson "Missing required data: resume file or job description."⟩,
        0, []⟩ := by
  obtain ⟨res, jdv⟩ := req
  rcases h with h | h
  · cases h; cases jdv <;> rfl
  · cases h; cases res <;> rfl

theorem missing_fields_returns_400_witness :
    analyze_resume (some failAllClient) ⟨none, some "Go developer"⟩ =
      ⟨⟨400, .errorJson "Missing required data: resume file or job description."⟩,
        0, []⟩ :=
  missing_fields_returns_400 failAllClient ⟨none, some "Go developer"⟩ (Or.inl rfl)

/-- Claim C1: a request whose uploaded document yields no extractable text
(parse failure, or pages all empty or all-whitespace, making the extraction
result Python-falsy) gets the ExtractionFailure 500 mentioning image-only
PDFs, and the Analysis Client is never invoked. -/
theorem no_text_returns_extraction_failure (c : Client) (f : UploadedFile)
    (jd : String) (req : AnalyzeRequest) (hres : req.resume = some f)
    (hjd : req.job_description = some jd) (hfn : f.filename ≠ "")
    (hpdf : pyEndsWith (pyLower f.filename) ".pdf" = true)
    (hjdne : pyStrip jd ≠ "") (hread : f.readError = none)
    (hx : isAbsent (extract_text_from_pdf f.content) = true) :
    analyze_resume (some c) req =
      ⟨⟨500, .errorJson "Could not extract readable text from PDF. The document might be an image-only PDF."⟩,
        0, []⟩ := by
  obtain ⟨res, jdv⟩ := req
  cases hres
  cases hjd
  simp [analyze_resume, hfn, hpdf, hjdne, hread, hx]

theorem no_text_returns_extraction_failure_witness :
    analyze_resume (some failAllClient) imageOnlyReq =
      ⟨⟨500, .errorJson "Could not extract readable text from PDF. The document might be an image-only PDF."⟩,
        0, []⟩ :=
  no_text_returns_extraction_failure failAllClient imageOnlyFile "Go developer"
    imageOnlyReq rfl rfl (by decide) (by decide) (by decide) rfl (by decide)

/-- Claim C2: with a client that reports an API error on the first two
attempts and succeeds on the third, the handler returns the 200 success
with the generated text, the client is invoked exactly 3 times, and the
sleeps are `2 ^ attempt` seconds: 1 second between attempts 1 and 2, then
2 seconds between attempts 2 and 3. -/
theorem retry_then_success_trace (c : Client) (f : UploadedFile) (jd : String)
    (req : AnalyzeRequest) (hres : req.resume = some f)
    (hjd : req.job_description = some jd) (hfn : f.filename ≠ "")
    (hpdf : pyEndsWith (pyLower f.filename) ".pdf" = true)
    (hjdne : pyStrip jd ≠ "") (hread : f.readError = none)
    (hx : isAbsent (extract_text_from_pdf f.content) = false)
    (m0 m1 t : String) (h0 : ∀ co cfg, c 0 co cfg = .apiErr m0)
    (h1 : ∀ co cfg, c 1 co cfg = .apiErr m1)
    (h2 : ∀ co cfg, c 2 co cfg = .ok t) :
    analyze_resume (some c) req = ⟨⟨200, .successJson t⟩, 3, [1, 2]⟩ := by
  rw [analyze_resume_valid c f jd req hres hjd hfn hpdf hjdne hread hx]
  show callLoop c _ _ MAX_RETRIES 0 (2 + 1) 0 [] = _
  rw [callLoop_apiErr_retry (h0 _ _) (by decide)]
  show callLoop c _ _ MAX_RETRIES 1 (1 + 1) 1 [2 ^ 0] = _
  rw [callLoop_apiErr_retry (h1 _ _) (by decide)]
  show callLoop c _ _ MAX_RETRIES 2 (0 + 1) 2 [2 ^ 0, 2 ^ 1] = _
  rw [callLoop_ok (h2 _ _)]
  rfl

theorem retry_then_success_trace_witness :
    analyze_resume (some failTwiceClient) sampleReq =
      ⟨⟨200, .successJson "analysis text"⟩, 3, [1, 2]⟩ :=
  retry_then_success_trace failTwiceClient sampleFile "Looking for a Go developer"
    sampleReq rfl rfl (by decide) (by decide) (by decide) rfl (by decide)
    "rate limit 0" "rate limit 1" "analysis text"
    (fun _ _ => rfl) (fun _ _ => rfl) (fun _ _ => rfl)

/-- Claim C3: with a client that reports an API error on all three
attempts, the handler makes exactly 3 calls, then returns 500 whose error
message names the attempt count (3 attempts) and the error detail. -/
theorem retries_exhausted_returns_500 (c : Client) (f : UploadedFile) (jd : String)
    (req : AnalyzeRequest) (hres : req.resume = some f)
    (hjd : req.job_description = some jd) (hfn : f.filename ≠ "")
    (hpdf : pyEndsWith (pyLower f.filename) ".pdf" = true)
    (hjdne : pyStrip jd ≠ "") (hread : f.readError = none)
    (hx : isAbsent (extract_text_from_pdf f.content) = false)
    (m0 m1 m2 : String) (h0 : ∀ co cfg, c 0 co cfg = .apiErr m0)
    (h1 : ∀ co cfg, c 1 co cfg = .apiErr m1)
    (h2 : ∀ co cfg, c 2 co cfg = .apiErr m2) :
    analyze_resume (some c) req =
      ⟨⟨500, .errorJson ("Gemini API Error after 3 attempts: " ++ m2)⟩, 3, [1, 2]⟩ := by
  rw [analyze_resume_valid c f jd req hres hjd hfn hpdf hjdne hread hx]
  show callLoop c _ _ MAX_RETRIES 0 (2 + 1) 0 [] = _
  rw [callLoop_apiErr_retry (h0 _ _) (by decide)]
  show callLoop c _ _ MAX_RETRIES 1 (1 + 1) 1 [2 ^ 0] = _
  rw [callLoop_apiErr_retry (h1 _ _) (by decide)]
  show callLoop c _ _ MAX_RETRIES 2 (0 + 1) 2 [2 ^ 0, 2 ^ 1] = _
  rw [callLoop_apiErr_final (h2 _ _) (by decide)]
  rfl

theorem retries_exhausted_returns_500_witness :
    analyze_resume (some failAllClient) sampleReq =
      ⟨⟨500, .errorJson "Gemini API Error after 3 attempts: rate limit 2"⟩, 3, [1, 2]⟩ :=
  retries_exhausted_returns_500 failAllClient sampleFile "Looking for a Go developer"
    sampleReq rfl rfl (by decide) (by decide) (by decide) rfl (by decide)
    "rate limit 0" "rate limit 1" "rate limit 2"
    (fun _ _ => rfl) (fun _ _ => rfl) (fun _ _ => rfl)


theorem callLoop_unexpected_at (c : Client) (co cfg : String) (k : Nat) (m : String)
    (hk : k < 3)
    (hprev : ∀ i, i < k → ∃ mi, c i co cfg = .apiErr mi)
    (hu : c k co cfg = .unexpected m) :
    callLoop c co cfg MAX_RETRIES 0 MAX_RETRIES 0 [] =
      ⟨⟨500, .errorJson ("Unexpected error: " ++ m)⟩, k + 1,
        (List.range k).map (2 ^ ·)⟩ := by
  interval_cases k
  · show callLoop c co cfg MAX_RETRIES 0 (2 + 1) 0 [] = _
    rw [callLoop_unexpected hu]
    rfl
  · obtain ⟨m0, hm0⟩ := hprev 0 (by decide)
    show callLoop c co cfg MAX_RETRIES 0 (2 + 1) 0 [] = _
    rw [callLoop_apiErr_retry hm0 (by decide)]
    show callLoop c co cfg MAX_RETRIES 1 (1 + 1) 1 [2 ^ 0] = _
    rw [callLoop_unexpected hu]
    rfl
  · obtain ⟨m0, hm0⟩ := hprev 0 (by decide)
    obtain ⟨m1, hm1⟩ := hprev 1 (by decide)
    show callLoop c co cfg MAX_RETRIES 0 (2 + 1) 0 [] = _
    rw [callLoop_apiErr_retry hm0 (by decide)]
    show callLoop c co cfg MAX_RETRIES 1 (1 + 1) 1 [2 ^ 0] = _
    rw [callLoop_apiErr_retry hm1 (by decide)]
    show callLoop c co cfg MAX_RETRIES 2 (0 + 1) 2 [2 ^ 0, 2 ^ 1] = _
    rw [callLoop_unexpected hu]
    rfl

/-- Claim C4 counterexample: with a stub that reports an API error on the
first attempt and raises a non-API exception on the second, the unexpected
error aborts the loop but the client was invoked 2 times, not exactly
once. -/
theorem unexpected_error_single_call_cex :
    (analyze_resume (some lateUnexpectedClient) sampleReq).response =
      ⟨500, .errorJson "Unexpected error: boom"⟩ ∧
    (analyze_resume (some lateUnexpectedClient) sampleReq).calls = 2 ∧
    ¬ (analyze_resume (some lateUnexpectedClient) sampleReq).calls = 1 := by
  decide

/-- Claim C4 (amended): a non-API exception on attempt `k` makes the
handler abort immediately with the distinct "Unexpected error" 500 — no
further invocation after the one that raised, so `k + 1` calls in total
(exactly once when it happens on the first call) and no additional
sleep. -/
theorem unexpected_error_aborts (c : Client) (f : UploadedFile) (jd : String)
    (req : AnalyzeRequest) (k : Nat) (m : String)
    (hres : req.resume = some f) (hjd : req.job_description = some jd)
    (hfn : f.filename ≠ "") (hpdf : pyEndsWith (pyLower f.filename) ".pdf" = true)
    (hjdne : pyStrip jd ≠ "") (hread : f.readError = none)
    (hx : isAbsent (extract_text_from_pdf f.content) = false)
    (hk : k < MAX_RETRIES)
    (hprev : ∀ i, i < k → ∀ co cfg, ∃ mi, c i co cfg = .apiErr mi)
    (hu : ∀ co cfg, c k co cfg = .unexpected m) :
    analyze_resume (some c) req =
      ⟨⟨500, .errorJson ("Unexpected error: " ++ m)⟩, k + 1,
        (List.range k).map (2 ^ ·)⟩ := by
  rw [analyze_resume_valid c f jd req hres hjd hfn hpdf hjdne hread hx]
  exact callLoop_unexpected_at c _ _ k m hk
    (fun i hi => hprev i hi _ _) (hu _ _)

theorem unexpected_error_aborts_witness :
    analyze_resume (some lateUnexpectedClient) sampleReq =
      ⟨⟨500, .errorJson "Unexpected error: boom"⟩, 2, [1]⟩ := by
  have h := unexpected_error_aborts lateUnexpectedClient sampleFile
    "Looking for a Go developer" sampleReq 1 "boom" rfl rfl (by decide)
    (by decide) (by decide) rfl (by decide) (by decide)
    (fun i hi co cfg => by interval_cases i; exact ⟨"rate limit", rfl⟩)
    (fun co cfg => rfl)
  exact h

set_option maxRecDepth 20000 in
/-- Claim C5: the user message is the deterministic literal interpolation
of the job description and resume text into the fixed template, whose tail
lists the four numbered section headers in order. -/
theorem user_prompt_embeds_inputs_and_sections (jd rt : String) :
    user_prompt jd rt =
      promptPre ++ jd ++ promptMid ++ rt ++
        (promptTail0 ++ "1.  **ATS Match Score:**" ++ promptTail1 ++
          "2.  **Missing Keywords/Skills:**" ++ promptTail2 ++
          "3.  **Summary of Strengths:**" ++ promptTail3 ++
          "4.  **Actionable Improvement Suggestions:**" ++ promptTail4) := by
  unfold user_prompt
  congr 1

/-- Claim C6: extraction concatenates the pages that yielded text with
newline separators, trims the result, and yields an absent value (Python
`None` or the falsy empty string, never an exception) on parse failure or
when every page yields no text. -/
theorem extract_text_contract (m : String) (ps : List String) :
    extract_text_from_pdf (.parseError m) = none ∧
    extract_text_from_pdf (.pages ps) =
      some (pyStrip (String.intercalate "\n" (ps.filter (fun p => p ≠ "")))) ∧
    ((∀ p ∈ ps, p = "") → isAbsent (extract_text_from_pdf (.pages ps)) = true) := by
  have h2 : extract_text_from_pdf (.pages ps) =
      some (pyStrip (String.intercalate "\n" (ps.filter (fun p => p ≠ "")))) := by
    show some (pyStrip (ps.foldl _ "")) = _
    rw [foldl_if_eq_filter ps "", foldl_nl_eq_intercalate]
  refine ⟨rfl, h2, fun hall => ?_⟩
  have hfil : ps.filter (fun p => p ≠ "") = [] := by
    rw [List.filter_eq_nil_iff]
    intro p hp
    simp [hall p hp]
  rw [h2, hfil]
  rfl

theorem extract_text_contract_witness :
    extract_text_from_pdf (.parseError "broken xref") = none ∧
    isAbsent (extract_text_from_pdf (.pages ["", ""])) = true :=
  ⟨(extract_text_contract "broken xref" ["", ""]).1,
    (extract_text_contract "broken xref" ["", ""]).2.2 (by decide)⟩


/-- Claim C8 counterexample: with the credential absent and construction
failing, a `POST /analyze` request is answered with status 500 — not the
503 the claim states. -/
theorem service_unavailable_status_cex :
    (analyze_resume (initGeminiClient "" failingConstruct) sampleReq).response.status = 500 ∧
    ¬ (analyze_resume (initGeminiClient "" failingConstruct) sampleReq).response.status = 503 := by
  decide

/-- Claim C8 (amended): when the credential is absent or construction
raises, startup completes with the client left unset, every `POST /analyze`
request then gets the service-unavailable 500 (the code maps this condition
to 500, not 503) without any client call, and `GET /` still serves 200. -/
theorem missing_credential_degrades (apiKey : String)
    (construct : String → Except String Client) (req : AnalyzeRequest)
    (h : apiKey = "" ∨ ∃ e, construct apiKey = .error e) :
    initGeminiClient apiKey construct = none ∧
    analyze_resume (initGeminiClient apiKey construct) req =
      ⟨⟨500, .errorJson "Gemini API client not initialized. Check server logs for API Key error."⟩,
        0, []⟩ ∧
    index.status = 200 := by
  have hnone : initGeminiClient apiKey construct = none := by
    rcases h with h | ⟨e, he⟩
    · simp [initGeminiClient, h]
    · by_cases hk : apiKey = "" <;> simp [initGeminiClient, hk, he]
  rw [hnone]
  exact ⟨rfl, rfl, rfl⟩

theorem missing_credential_degrades_witness :
    initGeminiClient "" failingConstruct = none ∧
    analyze_resume (initGeminiClient "" failingConstruct) sampleReq =
      ⟨⟨500, .errorJson "Gemini API client not initialized. Check server logs for API Key error."⟩,
        0, []⟩ ∧
    index.status = 200 :=
  missing_credential_degrades "" failingConstruct sampleReq (Or.inl rfl)

theorem callLoop_isJson (client : Client) (co cfg : String) :
    ∀ rem attempt calls sleeps, attempt + rem = MAX_RETRIES → 0 < rem →
      isJsonOutcome (callLoop client co cfg MAX_RETRIES attempt rem calls sleeps).response := by
  intro rem
  induction rem with
  | zero => intro attempt calls sleeps _ hpos; exact absurd hpos (by decide)
  | succ n ih =>
    intro attempt calls sleeps hsum _
    have hmr : MAX_RETRIES = 3 := rfl
    cases hc : client attempt co cfg with
    | ok t => rw [callLoop_ok hc]; exact isJson_ok t
    | apiErr m =>
      by_cases hlt : attempt < MAX_RETRIES - 1
      · rw [callLoop_apiErr_retry hc hlt]
        apply ih
        · rw [hmr] at hsum ⊢; rw [hmr] at hlt; omega
        · rw [hmr] at hsum; rw [hmr] at hlt; omega
      · rw [callLoop_apiErr_final hc hlt]
        exact isJson_err _ (Or.inr rfl)
    | unexpected m =>
      rw [callLoop_unexpected hc]
      exact isJson_err _ (Or.inr rfl)

/-- Claim C9: every request receives a classified JSON response (200
success or 400/500 error; no raw exception and no other shape escapes the
handler), and the one unclassified exception point inside the outer `try`
(the file read raising) is caught at the boundary and converted to the
"Internal Server Error" 500 JSON body. -/
theorem handler_classifies_all_outcomes (client : Option Client)
    (req : AnalyzeRequest) (c : Client) (f : UploadedFile) (jd e : String) :
    isJsonOutcome (analyze_resume client req).response ∧
    (req.resume = some f → req.job_description = some jd → f.filename ≠ "" →
      pyEndsWith (pyLower f.filename) ".pdf" = true → pyStrip jd ≠ "" →
      f.readError = some e →
      analyze_resume (some c) req =
        ⟨⟨500, .errorJson ("Internal Server Error: " ++ e)⟩, 0, []⟩) := by
  constructor
  · rcases client with _ | c'
    · exact isJson_err _ (Or.inr rfl)
    · obtain ⟨res, jdv⟩ := req
      rcases res with _ | fl
      · exact isJson_err _ (Or.inl rfl)
      · rcases jdv with _ | j
        · exact isJson_err _ (Or.inl rfl)
        · by_cases h1 : fl.filename = ""
          · simp only [analyze_resume, h1, if_pos]
            exact isJson_err _ (Or.inl rfl)
          · by_cases h2 : pyEndsWith (pyLower fl.filename) ".pdf" = true
            · by_cases h3 : pyStrip j = ""
              · simp only [analyze_resume]
                rw [if_neg h1, if_neg (by simp [h2]), if_pos h3]
                exact isJson_err _ (Or.inl rfl)
              · cases hre : fl.readError with
                | some e' =>
                  rw [show analyze_resume (some c') ⟨some fl, some j⟩ =
                    ⟨⟨500, .errorJson ("Internal Server Error: " ++ e')⟩, 0, []⟩ from by
                      simp [analyze_resume, h1, h2, h3, hre]]
                  exact isJson_err _ (Or.inr rfl)
                | none =>
                  by_cases h4 : isAbsent (extract_text_from_pdf fl.content) = true
                  · rw [show analyze_resume (some c') ⟨some fl, some j⟩ =
                      ⟨⟨500, .errorJson "Could not extract readable text from PDF. The document might be an image-only PDF."⟩, 0, []⟩ from by
                        simp [analyze_resume, h1, h2, h3, hre, h4]]
                    exact isJson_err _ (Or.inr rfl)
                  · rw [analyze_resume_valid c' fl j ⟨some fl, some j⟩ rfl rfl h1 h2 h3 hre
                      (by simpa using h4)]
                    exact callLoop_isJson c' _ _ MAX_RETRIES 0 0 [] rfl (by decide)
            · simp only [analyze_resume]
              rw [if_neg h1, if_pos (by simpa using h2)]
              exact isJson_err _ (Or.inl rfl)
  · intro hres hjd hfn hpdf hjdne hre
    obtain ⟨res, jdv⟩ := req
    cases hres
    cases hjd
    simp [analyze_resume, hfn, hpdf, hjdne, hre]

theorem handler_classifies_all_outcomes_witness :
    analyze_resume (some failAllClient) readErrorReq =
      ⟨⟨500, .errorJson "Internal Server Error: disk failure"⟩, 0, []⟩ :=
  (handler_classifies_all_outcomes (some failAllClient) readErrorReq failAllClient
    readErrorFile "Go developer" "disk failure").2 rfl rfl (by decide) (by decide)
    (by decide) rfl


theorem client_check_precedes_validation_witness :
    analyze_resume none ⟨none, none⟩ =
      ⟨⟨500, .errorJson "Gemini API client not initialized. Check server logs for API Key error."⟩,
        0, []⟩ :=
  client_check_precedes_validation ⟨none, none⟩

theorem user_prompt_embeds_inputs_and_sections_witness :
    user_prompt "Looking for a Go developer"
        "Experienced engineer with Python and Go skills" =
      promptPre ++ "Looking for a Go developer" ++ promptMid ++
        "Experienced engineer with Python and Go skills" ++
        (promptTail0 ++ "1.  **ATS Match Score:**" ++ promptTail1 ++
          "2.  **Missing Keywords/Skills:**" ++ promptTail2 ++
          "3.  **Summary of Strengths:**" ++ promptTail3 ++
          "4.  **Actionable Improvement Suggestions:**" ++ promptTail4) :=
  user_prompt_embeds_inputs_and_sections "Looking for a Go developer"
    "Experienced engineer with Python and Go skills"

end AiResume
